import Mathlib

/-!
Verification of the turn/action engine of a turn-based strategy game backend.

The definitions below are a shallow embedding of the Python source:
  * `app/routers/games_router.py` — the action appliers
    (`apply_player_actions`, `apply_ai_actions`) and the spatial utilities
    (`set_explored_radius`, `find_random_unexplored_tile`);
  * `app/services/ai_agent.py` — the AI decision normalizer
    (`get_ai_actions`, `create_fallback_actions`) and the reduced-mode
    state-merge guard (`smart_merge_players`).

Modelling conventions:
  * Python dict-shaped entities are embedded as records whose fields are the
    keys the engine reads or writes; a field read with `.get(k)` (which may
    yield `None`) is `Option`-valued.  `None` and an absent key are
    identified.
  * Python `logging.warning` calls are collected in an explicit `List String`
    output component (a writer channel); the functions' return value proper
    is the other component.
  * `random.choice` is modelled by an extra `Nat` argument selecting an index
    into the candidate list (the source draws one uniformly).
  * In-place mutation of an argument object is modelled by returning the
    caller's object after the call as an explicit component; `copy.deepcopy`
    of immutable Lean values is the identity, so a function that first deep
    copies its argument leaves the caller's object equal to the input.
-/

namespace Civ

/-- Dynamically-typed JSON-like values, used by the reduced-players merge
(`smart_merge_players`), whose entities are arbitrary dicts and whose merge
compares runtime types of leaf values. -/
inductive JVal where
  | str (s : String)
  | int (n : Int)
  | bool (b : Bool)
  | null
  | arr (elems : List JVal)
  | obj (fields : List (String × JVal))

/-- A JSON object: an ordered association list of fields (a Python dict
preserves insertion order and has unique keys). -/
abbrev JObj := List (String × JVal)

/-- A 2-D coordinate dict `{"x": ..., "y": ...}`. -/
structure Loc where
  x : Int
  y : Int
deriving DecidableEq

/-- A unit record: the keys of the unit dicts that the engine reads or
writes (`id`, `type`, `location`, `owner`, `movement_points`). -/
structure GUnit where
  id : Option String := none
  type : Option String := none
  location : Option Loc := none
  owner : Option String := none
  movement_points : Option Int := none
deriving DecidableEq

/-- A city record: the keys of the city dicts that the engine reads or
writes (`id`, `name`, `location`, `buildings`, `population`, `owner`). -/
structure City where
  id : Option String := none
  name : Option String := none
  location : Option Loc := none
  buildings : Option (List String) := none
  population : Option Int := none
  owner : Option String := none
deriving DecidableEq

/-- A technology record `{"name": ..., "turns_remaining": ...}`. -/
structure Tech where
  name : Option String := none
  turns_remaining : Option Int := none
deriving DecidableEq

/-- A resource record.  The engine only ever writes the key `improved`
(`resource["improved"] = True`); the record is assumed non-empty, so the
Python truthiness test `if resource:` on it succeeds. -/
structure ResourceR where
  improved : Option Bool := none
deriving DecidableEq

/-- Model of `GameStatePlayer` from `app/models.py`: one side's roster. -/
structure GameStatePlayer where
  cities : List City
  units : List GUnit
  technologies : List Tech
  resources : List (String × ResourceR)
deriving DecidableEq

/-- Model of `MapSize` from `app/models.py`. -/
structure MapSize where
  width : Int
  height : Int
deriving DecidableEq

/-- Model of `GameMap` from `app/models.py`.  `visible_objects` and `stored_tiles` are
opaque to the engine (never read or written by any embedded function) and are
omitted. -/
structure GameMap where
  size : MapSize
  explored : List (List Nat)
deriving DecidableEq

/-- Model of `GameState` from `app/models.py`. -/
structure GameState where
  turn : Int
  current_player : String
  player : GameStatePlayer
  ai : List GameStatePlayer
  map : GameMap
deriving DecidableEq

/-- The empty roster `GameStatePlayer(cities=[], units=[], technologies=[],
resources={})` that the engine lazily installs when `gs.ai` is empty. -/
def emptyRoster : GameStatePlayer := ⟨[], [], [], []⟩

/-- The `details` dict of an action, with the keys the engine reads. -/
structure ActionDetails where
  unitId : Option String := none
  destination : Option Loc := none
  cityId : Option String := none
  structureType : Option String := none
  unitType : Option String := none
  quantity : Option Int := none
  resourceType : Option String := none
  technology : Option String := none
  location : Option Loc := none
deriving DecidableEq

/-- An action dict `{"type": ..., "details": {...}}`; `details` defaults to
the empty dict (`action.get("details", {})`). -/
structure PAction where
  type : Option String := none
  details : ActionDetails := {}
deriving DecidableEq

/-- Python truthiness of an optional string: `None` and `""` are falsy. -/
def strTruthy : Option String → Bool
  | none => false
  | some s => s ≠ ""

/-! ### Spatial utilities (`games_router.py` lines 323-340) -/

/-- Reads `explored[y][x]` with an (irrelevant, never-hit in rectangular grids)
default. -/
def getCell (g : List (List Nat)) (x y : Nat) : Nat :=
  (g.getD y []).getD x 0

/-- Writes `explored[y][x] = v` as a functional update. -/
def setCell (g : List (List Nat)) (x y : Nat) (v : Nat) : List (List Nat) :=
  g.set y ((g.getD y []).set x v)

/-- The offsets `range(-radius, radius + 1)`. -/
def offs (radius : Nat) : List Int :=
  (List.range (2 * radius + 1)).map (fun (i : Nat) => (i : Int) - radius)

/-- The body of the double loop of `set_explored_radius` for the offset pair
`p = (dy, dx)`: `x, y = cx + dx, cy + dy`; write 1 when `0 <= x < width and
0 <= y < height`. -/
def writeStep (center : Int × Int) (width height : Nat)
    (g : List (List Nat)) (p : Int × Int) : List (List Nat) :=
  if 0 ≤ center.1 + p.2 ∧ center.1 + p.2 < (width : Int)
      ∧ 0 ≤ center.2 + p.1 ∧ center.2 + p.1 < (height : Int) then
    setCell g (center.1 + p.2).toNat (center.2 + p.1).toNat 1
  else g

/-- Embedding of `set_explored_radius(explored, center, radius=2)`: marks every cell of
the inclusive square of Chebyshev radius `radius` around `center` as
explored, clipped to the grid bounds (`dy` outer loop, `dx` inner loop). -/
def set_explored_radius (explored : List (List Nat)) (center : Int × Int)
    (radius : Nat) : List (List Nat) :=
  let height := explored.length
  let width := (explored.headD []).length
  (offs radius).foldl (fun g1 dy =>
    (offs radius).foldl (fun g2 dx => writeStep center width height g2 (dy, dx)) g1)
    explored

/-- Embedding of `find_random_unexplored_tile(explored)`: the list of cells with value 0
(`y` outer, `x` inner, as in the source's comprehension); `random.choice` is
modelled by the index `pick` (taken modulo the list length); if no cell is
unexplored, the deterministic fallback is the grid's center. -/
def find_random_unexplored_tile (explored : List (List Nat)) (pick : Nat) :
    Nat × Nat :=
  let height := explored.length
  let width := (explored.headD []).length
  let unexplored := (List.range height).flatMap (fun y =>
    (List.range width).filterMap (fun x =>
      if getCell explored x y = 0 then some (x, y) else none))
  match unexplored with
  | [] => (width / 2, height / 2)
  | l => l.getD (pick % l.length) (width / 2, height / 2)

/-! ### Player action applier (`games_router.py`, `apply_player_actions`) -/

/-- The `moveUnit` loop of `apply_player_actions`: relocate the first unit
whose `id` equals `unit_id` and `break`; the flag records whether one was
found. -/
def moveFirstUnit (uid : String) (dest : Loc) : List GUnit → List GUnit × Bool
  | [] => ([], false)
  | u :: us =>
    if u.id = some uid then ({u with location := some dest} :: us, true)
    else
      let r := moveFirstUnit uid dest us
      (u :: r.1, r.2)

/-- The `buildStructure` loop: append `structure` to the `buildings` of the
first city whose `id` matches (`setdefault("buildings", [])`), then `break`. -/
def buildFirstCity (cid structure0 : String) : List City → List City
  | [] => []
  | c :: cs =>
    if c.id = some cid then
      {c with buildings := some (c.buildings.getD [] ++ [structure0])} :: cs
    else c :: buildFirstCity cid structure0 cs

/-- The unit record built by the `trainUnit` branches: fresh id
`"<side>_unit_<n+1>"` where `n` is the unit count when it is generated. -/
def mkUnit (side uty : String) (locn : Option Loc) (n : Nat) : GUnit :=
  { id := some (side ++ "_unit_" ++ toString (n + 1)), type := some uty,
    location := locn, owner := some side, movement_points := some 2 }

/-- The inner `for _ in range(quantity)` loop of `trainUnit`: appends one
unit per iteration, the id deriving from the growing unit count. -/
def train_loop (side uty : String) (locn : Option Loc) :
    List GUnit → Nat → List GUnit
  | units, 0 => units
  | units, q + 1 =>
    train_loop side uty locn (units ++ [mkUnit side uty locn units.length]) q

/-- The `improveResource` branch (player side): set `improved = True` on the
resource found under key `resourceType` (dict keys are unique). -/
def improveRes (rt : String) : List (String × ResourceR) → List (String × ResourceR)
  | [] => []
  | (k, v) :: rest =>
    if k = rt then (k, {v with improved := some true}) :: rest
    else (k, v) :: improveRes rt rest

/-- The city record built by the player `foundCity` branch. -/
def mkCity (side cid : String) (loc : Loc) : City :=
  { id := some cid, name := some cid, location := some loc,
    buildings := some [], population := some 1, owner := some side }

/-- One iteration of the `apply_player_actions` action loop.  The second
component collects the `logging.warning` messages the iteration emits (the
function's only reporting channel; its Python return value is the state
alone). -/
def apply_player_action (gs : GameState) (a : PAction) : GameState × List String :=
  let d := a.details
  if a.type = some "moveUnit" then
    if strTruthy d.unitId && d.destination.isSome then
      let uid := d.unitId.getD ""
      let r := moveFirstUnit uid (d.destination.getD ⟨0, 0⟩) gs.player.units
      ({gs with player := {gs.player with units := r.1}},
       if r.2 then [] else ["Unit " ++ uid ++ " not found."])
    else (gs, [])
  else if a.type = some "buildStructure" then
    if strTruthy d.cityId && strTruthy d.structureType then
      ({gs with player := {gs.player with
          cities := buildFirstCity (d.cityId.getD "") (d.structureType.getD "") gs.player.cities}}, [])
    else (gs, [])
  else if a.type = some "trainUnit" then
    if strTruthy d.cityId && strTruthy d.unitType then
      match gs.player.cities.find? (fun c => c.id == d.cityId) with
      | some c =>
        ({gs with player := {gs.player with
            units := train_loop "player" (d.unitType.getD "") c.location
              gs.player.units ((d.quantity.getD 1).toNat)}}, [])
      | none => (gs, [])
    else (gs, [])
  else if a.type = some "improveResource" then
    if strTruthy d.resourceType then
      ({gs with player := {gs.player with
          resources := improveRes (d.resourceType.getD "") gs.player.resources}}, [])
    else (gs, [])
  else if a.type = some "researchTechnology" then
    if strTruthy d.technology then
      if ∃ t ∈ gs.player.technologies, t.name = d.technology then (gs, [])
      else
        ({gs with player := {gs.player with
            technologies := gs.player.technologies ++ [⟨d.technology, some 0⟩]}}, [])
    else (gs, [])
  else if a.type = some "foundCity" then
    let cid := d.cityId.getD ("player_city_" ++ toString (gs.player.cities.length + 1))
    match d.location with
    | some loc =>
      if ∃ c ∈ gs.player.cities, c.id = some cid then (gs, [])
      else
        let cities1 := gs.player.cities ++ [mkCity "player" cid loc]
        ({gs with
            player := {gs.player with cities := cities1},
            map := {gs.map with explored :=
              if cities1.length = 1 then
                set_explored_radius gs.map.explored (loc.x, loc.y) 2
              else gs.map.explored}}, [])
    | none => (gs, [])
  else if a.type = some "attackEnemy" then
    match d.location with
    | some loc =>
      if gs.ai = [] then (gs, [])
      else
        ({gs with ai := gs.ai.map (fun r =>
            {r with units := r.units.filter (fun u => decide (u.location ≠ some loc))})}, [])
    | none => (gs, [])
  else (gs, [])

/-- Embedding of `apply_player_actions(gs, player_actions)`: first takes a deep copy of
`gs` (identity on immutable values), then runs the action loop.  The
returned pair is the new state together with the accumulated warning log. -/
def apply_player_actions (gs : GameState) (acts : List PAction) : GameState × List String :=
  acts.foldl (fun st a =>
    let r := apply_player_action st.1 a
    (r.1, st.2 ++ r.2)) (gs, [])

/-- The call seen from the caller: the first component is the caller's own
`GameState` object after the call returns.  `apply_player_actions` rebinds
its local to `deepcopy(gs)` before any mutation, so that object is the
unchanged input. -/
def apply_player_actions_call (gs : GameState) (acts : List PAction) :
    GameState × (GameState × List String) :=
  (gs, apply_player_actions gs acts)

/-! ### AI action applier (`games_router.py`, `apply_ai_actions`) -/

/-- The AI `moveUnit` loop: every unit whose `id` equals `unitId` (no
`break`, and no truthiness pre-check on the id) is relocated, provided the
destination is truthy. -/
def aiMoveUnits (uid : Option String) (dest : Option Loc) (units : List GUnit) :
    List GUnit :=
  units.map (fun u => if u.id = uid ∧ dest.isSome then {u with location := dest} else u)

/-- The AI `buildStructure` loop: every city whose `id` matches gets the
structure appended (no `break`). -/
def aiBuildCities (cid st : Option String) (cities : List City) : List City :=
  cities.map (fun c =>
    if c.id = cid ∧ strTruthy st then
      {c with buildings := some (c.buildings.getD [] ++ [st.getD ""])}
    else c)

/-- The AI `trainUnit` loop over cities: each city whose `id` matches trains
`q` units (ids derive from the running unit count). -/
def ai_train_cities (cid uty : Option String) (q : Nat) :
    List City → List GUnit → List GUnit
  | [], units => units
  | c :: cs, units =>
    ai_train_cities cid uty q cs
      (if c.id = cid ∧ strTruthy uty then
        train_loop "ai" (uty.getD "") c.location units q
      else units)

/-- The AI `improveResource` loop: every resource entry whose key equals
`resourceType` is marked improved. -/
def aiImproveRes (rt : Option String) (rs : List (String × ResourceR)) :
    List (String × ResourceR) :=
  rs.map (fun kv => if some kv.1 = rt then (kv.1, {kv.2 with improved := some true}) else kv)

/-- The city record built by the AI `foundCity` branch: the id defaults to
`"ai_city_<n+1>"` when absent or falsy, and a missing location is replaced by
a randomly chosen unexplored tile. -/
def aiNewCity (explored : List (List Nat)) (pick : Nat) (nCities : Nat)
    (d : ActionDetails) : City :=
  let cid0 := d.cityId.getD ("ai_city_" ++ toString (nCities + 1))
  let cid := if cid0 = "" then "ai_city_" ++ toString (nCities + 1) else cid0
  let loc := match d.location with
    | some l => l
    | none =>
      let t := find_random_unexplored_tile explored pick
      ⟨(t.1 : Int), (t.2 : Int)⟩
  { id := some cid, name := some cid, location := some loc,
    buildings := some [], population := some 1, owner := some "ai" }

/-- One iteration of the `apply_ai_actions` action loop, acting on the pair
(first AI roster, player units); the rest of the state is read-only. -/
def apply_ai_action (explored : List (List Nat)) (pick : Nat)
    (st : GameStatePlayer × List GUnit) (a : PAction) :
    GameStatePlayer × List GUnit :=
  let ap := st.1
  let d := a.details
  if a.type = some "moveUnit" then
    ({ap with units := aiMoveUnits d.unitId d.destination ap.units}, st.2)
  else if a.type = some "buildStructure" then
    ({ap with cities := aiBuildCities d.cityId d.structureType ap.cities}, st.2)
  else if a.type = some "trainUnit" then
    ({ap with units :=
        ai_train_cities d.cityId d.unitType ((d.quantity.getD 1).toNat) ap.cities ap.units},
     st.2)
  else if a.type = some "improveResource" then
    ({ap with resources := aiImproveRes d.resourceType ap.resources}, st.2)
  else if a.type = some "researchTechnology" then
    (if strTruthy d.technology then
      {ap with technologies := ap.technologies ++ [⟨d.technology, some 0⟩]}
    else ap, st.2)
  else if a.type = some "foundCity" then
    ({ap with cities := ap.cities ++ [aiNewCity explored pick ap.cities.length d]}, st.2)
  else if a.type = some "attackEnemy" then
    (ap, match d.location with
      | some loc => st.2.filter (fun u => decide (u.location ≠ some loc))
      | none => st.2)
  else st

/-- Embedding of `apply_ai_actions(gs, ai_actions)`: deep-copies `gs`, lazily installs one
empty roster when `gs.ai` is empty, runs the loop on the first AI roster
(and the player's units for `attackEnemy`), and writes the roster back at
index 0. -/
def apply_ai_actions (gs : GameState) (acts : List PAction) (pick : Nat) : GameState :=
  let aiL := if gs.ai = [] then [emptyRoster] else gs.ai
  let st := acts.foldl (apply_ai_action gs.map.explored pick)
    (aiL.headD emptyRoster, gs.player.units)
  {gs with ai := aiL.set 0 st.1, player := {gs.player with units := st.2}}

/-- The call seen from the caller: `apply_ai_actions` also deep-copies its
argument first, so the caller's object (first component) is the input. -/
def apply_ai_actions_call (gs : GameState) (acts : List PAction) (pick : Nat) :
    GameState × GameState :=
  (gs, apply_ai_actions gs acts pick)

/-! ### AI decision normalizer (`ai_agent.py`, `get_ai_actions` /
`create_fallback_actions`) -/

/-- The `entity{id, type}` reference attached to a normalized action. -/
structure SeqEntity where
  id : Option String
  name : String
  type : String
deriving DecidableEq

/-- The `movement_points` record attached to normalized `moveUnit`
actions. -/
structure MovementPoints where
  initial : Int
  remaining : Int
deriving DecidableEq

/-- One entry of `ai_actions_sequence`.  The two empty placeholder
snapshot dicts are omitted. -/
structure SeqEntry where
  id : Nat
  action_type : String
  entity : Option SeqEntity
  path : Option (List Loc)
  movement_points : Option MovementPoints
deriving DecidableEq

/-- One iteration of the `ai_actions_sequence` building loop of
`get_ai_actions`: ownership re-validation (`moveUnit` / `buildStructure` /
`trainUnit` must reference the AI roster's own assets, others pass through),
yielding `none` when the action is skipped by `continue`. -/
def normalize_action (ai : GameStatePlayer) (idx : Nat) (a : PAction) : Option SeqEntry :=
  let t := a.type.getD ""
  let d := a.details
  if t = "moveUnit" then
    if d.unitId ∈ ai.units.map (fun u => u.id) then
      some { id := idx, action_type := t,
             entity := some { id := d.unitId, name := "Unknown", type := "unit" },
             path := d.destination.map (fun dest => [dest]),
             movement_points := some ⟨2, 0⟩ }
    else none
  else if t = "buildStructure" ∨ t = "trainUnit" then
    if d.cityId ∈ ai.cities.map (fun c => c.id) then
      some { id := idx, action_type := t,
             entity := some { id := d.cityId, name := "Unknown", type := "city" },
             path := none, movement_points := none }
    else none
  else if t = "attackEnemy" then
    some { id := idx, action_type := t,
           entity := some { id := some (d.unitId.getD "unknown"), name := "Unknown", type := "unit" },
           path := none, movement_points := none }
  else if t = "foundCity" ∨ t = "improveResource" ∨ t = "researchTechnology" ∨ t = "endTurn" then
    some { id := idx, action_type := t, entity := none, path := none, movement_points := none }
  else none

/-- The `ai_actions_sequence` built from the oracle's extracted action list
(`enumerate(actions, 1)` with skipped actions dropped). -/
def build_sequence (ai : GameStatePlayer) (acts : List PAction) : List SeqEntry :=
  (acts.enumFrom 1).filterMap (fun p => normalize_action ai p.1 p.2)

/-- The deterministic default policy of `create_fallback_actions`: the
internal `actions` list (no cities: found one at the map's center; cities
but no units: train a warrior at the first city; units: move the first unit
one tile diagonally, coordinates modulo the map dimensions; always end with
`endTurn`). -/
def fallback_actions (gs : GameState) (ai : GameStatePlayer) : List PAction :=
  let base :=
    if ai.cities = [] then
      [{ type := some "foundCity",
         details := { cityId := some "ai_city_1",
                      location := some ⟨gs.map.size.width / 2, gs.map.size.height / 2⟩ } }]
    else if ai.units = [] then
      [{ type := some "trainUnit",
         details := { cityId := some (((ai.cities.headD {}).id).getD "ai_city_1"),
                      unitType := some "warrior", quantity := some 1 } }]
    else
      let u := ai.units.headD {}
      let loc := u.location.getD ⟨0, 0⟩
      [{ type := some "moveUnit",
         details := { unitId := some (u.id.getD "ai_unit_1"),
                      destination := some ⟨(loc.x + 1) % gs.map.size.width,
                                          (loc.y + 1) % gs.map.size.height⟩ } }]
  base ++ [{ type := some "endTurn" }]

/-- The `ai_actions_sequence` of the fallback result: one entry per fallback
action, 1-based ids, no entity/path/movement points. -/
def fallback_sequence (gs : GameState) (ai : GameStatePlayer) : List SeqEntry :=
  (fallback_actions gs ai).enum.map (fun p =>
    { id := p.1 + 1, action_type := (p.2.type).getD "", entity := none,
      path := none, movement_points := none })

/-- The observable behaviours of the external decision oracle, as the
normalizer's control flow distinguishes them: the call raises; the raw text
yields no parsable JSON object; or a JSON object is extracted whose
`actions` entry is the given list (`[]` when absent or empty). -/
inductive OracleOutcome where
  | raises
  | unparsable
  | parsed (acts : List PAction)

/-- The in-place lazy initialization at the top of `get_ai_actions`: when
`gs.ai` is empty, the caller's object itself gets a singleton placeholder
roster assigned to its `ai` field. -/
def lazyAI (gs : GameState) : GameState :=
  if gs.ai = [] then {gs with ai := [emptyRoster]} else gs

/-- Embedding of `get_ai_actions(gs)`: the first component is the caller's `GameState`
object after the call (this function does NOT deep-copy: the lazy roster
initialization mutates the argument); the second is the returned
`ai_actions_sequence` (the summary entries of the returned dict are not
modelled).  Oracle failure, unparsable output, and an empty extracted action
list all degrade to the deterministic fallback. -/
def get_ai_actions (gs : GameState) (oracle : OracleOutcome) :
    GameState × List SeqEntry :=
  let gs1 := lazyAI gs
  let ai := gs1.ai.headD emptyRoster
  match oracle with
  | .raises => (gs1, fallback_sequence gs1 ai)
  | .unparsable => (gs1, fallback_sequence gs1 ai)
  | .parsed acts =>
    if acts = [] then (gs1, fallback_sequence gs1 ai)
    else (gs1, build_sequence ai acts)

/-! ### State merge guard (`ai_agent.py`, `smart_merge_players`) -/

/-- First-match lookup in a JSON object (dict keys are unique). -/
def jget (o : JObj) (k : String) : Option JVal :=
  match o with
  | [] => none
  | (k0, v) :: rest => if k0 = k then some v else jget rest k

/-- Python `type(a) == type(b)` on JSON leaf/values: same runtime type
(`bool` and `int` are distinct types). -/
def sameCtor : JVal → JVal → Bool
  | .str _, .str _ => true
  | .int _, .int _ => true
  | .bool _, .bool _ => true
  | .null, .null => true
  | .arr _, .arr _ => true
  | .obj _, .obj _ => true
  | _, _ => false

/-- The per-entity merge of `smart_merge_players`: for each field of the
original entity, copy the proposed value only when the proposed entity has a
same-named field of the same runtime type; never add or remove a field. -/
def mergeEntity (oc ac : JObj) : JObj :=
  oc.map (fun kv =>
    match jget ac kv.1 with
    | some w => if sameCtor kv.2 w then (kv.1, w) else kv
    | none => kv)

/-- Pairwise entity-list merge (the source's
`for oc, ac in zip(orig, ai): ...`). -/
def mergeEntities (ocs acs : List JObj) : List JObj :=
  (ocs.zip acs).map (fun p => mergeEntity p.1 p.2)

/-- A player record of the reduced `players` format, as the merge reads it:
its id (as a string, `str(p.get('id', ''))`), its `cities` and `units`
entity lists, and its remaining fields, which the merge copies verbatim. -/
structure RPlayer where
  id : String
  cities : List JObj
  units : List JObj
  extra : JObj

/-- A proposed (oracle-returned) player record, as the merge reads it:
`ai_p.get('cities', [])` guarded by `isinstance(..., list)` — `none` stands
for a missing or non-list entry. -/
structure PropPlayer where
  cities : Option (List JObj) := none
  units : Option (List JObj) := none

/-- Embedding of `smart_merge_players(original_players, ai_players)`: walks
`zip(original_players, ai_players)`; non-AI players (id not starting with
`'rival'`) are kept verbatim; for AI players the `cities` and `units` lists
are merged entity-by-entity (again via `zip`). -/
def smart_merge_players (originals : List RPlayer) (proposed : List PropPlayer) :
    List RPlayer :=
  (originals.zip proposed).map (fun p =>
    let op := p.1
    if op.id.startsWith "rival" then
      { op with cities := mergeEntities op.cities (p.2.cities.getD []),
                units := mergeEntities op.units (p.2.units.getD []) }
    else op)

/-! ### Concrete states and actions used by counterexamples and witnesses -/

/-- A base 10×10 map with a small explored grid. -/
def baseMap : GameMap := { size := ⟨10, 10⟩, explored := [[0, 0], [0, 0]] }

/-- Original reduced-players list with three players (one human, two AI). -/
def c1Orig : List RPlayer :=
  [ { id := "player1", cities := [[("name", JVal.str "a")]], units := [], extra := [] },
    { id := "rival1", cities := [[("name", JVal.str "b")]], units := [], extra := [] },
    { id := "rival2", cities := [], units := [], extra := [] } ]

/-- A proposed players list in which one player has been removed. -/
def c1Prop : List PropPlayer := [{}, {}]

/-- C1: evaluation at the failing input.  `smart_merge_players` pairs the
lists with `zip`, which truncates to the shorter list: an original of 3
players merged with a proposed list of 2 yields 2 players, not 3 — despite
the function's own docstring promising it never removes anything and never
changes the structure. -/
theorem c1_merge_zip_truncates :
    (smart_merge_players c1Orig c1Prop).length = 2 ∧ c1Orig.length = 3 := by
  decide

/-- Player state with a single unit `u1` (and no unit `ghost`). -/
def c3State : GameState :=
  { turn := 1, current_player := "player",
    player := { cities := [],
                units := [{ id := some "u1", type := some "warrior",
                            location := some ⟨2, 2⟩, owner := some "player",
                            movement_points := some 2 }],
                technologies := [], resources := [] },
    ai := [emptyRoster], map := baseMap }

/-- A `moveUnit` action whose `unitId` is absent from the player's units. -/
def c3Action : PAction :=
  { type := some "moveUnit",
    details := { unitId := some "ghost", destination := some ⟨1, 1⟩ } }

/-- C3: evaluation at the failing input.  Applying a `moveUnit` whose
`unitId` is absent leaves the state unchanged, and the only report is a
`logging.warning` entry naming the unit (second component: the warning log);
the function's Python return value is the state alone — no errors list is
returned to the caller anywhere in the player-action path. -/
theorem c3_move_ghost_only_logs :
    apply_player_actions c3State [c3Action] = (c3State, ["Unit ghost not found."]) := by
  decide

/-- C4 (amended): the two action appliers rebind their argument to an
explicit deep copy before mutating, so the caller's object (the `_call`
embeddings' first component) is always the unchanged input; the AI decision
normalizer `get_ai_actions` leaves the caller's object unchanged only when
the `ai` roster list is non-empty. -/
theorem c4_engine_operates_on_copies (gs : GameState) (acts : List PAction)
    (pick : Nat) (oracle : OracleOutcome) :
    (apply_player_actions_call gs acts).1 = gs
    ∧ (apply_ai_actions_call gs acts pick).1 = gs
    ∧ (gs.ai ≠ [] → (get_ai_actions gs oracle).1 = gs) := by
  refine ⟨rfl, rfl, fun h => ?_⟩
  have hl : lazyAI gs = gs := if_neg h
  cases oracle with
  | raises => simp [get_ai_actions, hl]
  | unparsable => simp [get_ai_actions, hl]
  | parsed acts2 =>
    simp only [get_ai_actions, hl]
    split <;> rfl

/-- A state whose `ai` roster list is empty. -/
def c4EmptyState : GameState :=
  { turn := 1, current_player := "ai",
    player := { cities := [], units := [], technologies := [], resources := [] },
    ai := [], map := baseMap }

/-- C4: counterexample.  When the `ai` roster list is empty, the AI decision
normalizer mutates the caller's `GameState` in place (installing a singleton
placeholder roster) instead of operating on a deep copy: the caller's object
after the call differs from its value before. -/
theorem c4_counterexample :
    (get_ai_actions c4EmptyState OracleOutcome.raises).1 ≠ c4EmptyState := by
  decide

/-- C4: witness for the amended theorem's hypothesis (`gs.ai ≠ []`). -/
theorem c4_witness :
    c3State.ai ≠ [] ∧ (get_ai_actions c3State OracleOutcome.raises).1 = c3State :=
  ⟨by decide, (c4_engine_operates_on_copies c3State [] 0 OracleOutcome.raises).2.2 (by decide)⟩

/-- The `attackEnemy` action at a location. -/
def attackAction (loc : Loc) : PAction :=
  { type := some "attackEnemy", details := { location := some loc } }

/-- C8 (amended): `attackEnemy` removes every unit of the opposing side(s)
whose location equals the coordinate — the player-triggered variant from
every AI roster, the AI-triggered variant from the player's units — and BOTH
variants are silent on a miss: the player-triggered variant emits no error
(empty warning log) whether or not an opposing unit occupied the location. -/
theorem c8_attack_removes_opposing_units (gs : GameState) (loc : Loc) (pick : Nat) :
    (gs.ai ≠ [] →
      apply_player_actions gs [attackAction loc] =
        ({gs with ai := gs.ai.map (fun r =>
            {r with units := r.units.filter (fun u => decide (u.location ≠ some loc))})}, []))
    ∧ (gs.ai = [] → apply_player_actions gs [attackAction loc] = (gs, []))
    ∧ (apply_ai_actions gs [attackAction loc] pick).player.units
        = gs.player.units.filter (fun u => decide (u.location ≠ some loc))
    ∧ (apply_ai_actions gs [attackAction loc] pick).map = gs.map := by
  refine ⟨fun h => ?_, fun h => ?_, ?_, ?_⟩
  · simp [apply_player_actions, apply_player_action, attackAction, h]
  · simp [apply_player_actions, apply_player_action, attackAction, h]
  · simp [apply_ai_actions, apply_ai_action, attackAction]
  · simp [apply_ai_actions, apply_ai_action, attackAction]

/-- State in which the only AI unit stands at (5,5). -/
def c8State : GameState :=
  { turn := 1, current_player := "player",
    player := { cities := [], units := [], technologies := [], resources := [] },
    ai := [{ cities := [], units := [{ id := some "a1", type := some "warrior",
                                       location := some ⟨5, 5⟩, owner := some "ai",
                                       movement_points := some 2 }],
             technologies := [], resources := [] }],
    map := baseMap }

/-- C8: counterexample.  A player-triggered `attackEnemy` at (0,0) — a miss,
no opposing unit stands there — leaves the state unchanged and reports
nothing at all (the warning log, the applier's only reporting channel, is
empty, and its Python return value is the state alone), refuting the claim
that the player-triggered variant reports an error on a miss. -/
theorem c8_counterexample :
    apply_player_actions c8State [attackAction ⟨0, 0⟩] = (c8State, []) := by
  decide

/-- C8: witness for the amended theorem's hypotheses at a concrete input. -/
theorem c8_witness :
    c8State.ai ≠ []
    ∧ apply_player_actions c8State [attackAction ⟨5, 5⟩] =
        ({c8State with ai := c8State.ai.map (fun r =>
            {r with units := r.units.filter (fun u => decide (u.location ≠ some (⟨5, 5⟩ : Loc)))})}, []) :=
  ⟨by decide, (c8_attack_removes_opposing_units c8State ⟨5, 5⟩ 0).1 (by decide)⟩

/-- A singleton batch is the single action step. -/
theorem apply_player_actions_one (g : GameState) (a : PAction) :
    apply_player_actions g [a] = apply_player_action g a := by
  simp [apply_player_actions]

/-- A two-action batch is the two steps chained, logs concatenated. -/
theorem apply_player_actions_two (g : GameState) (a b : PAction) :
    apply_player_actions g [a, b] =
      ((apply_player_action (apply_player_action g a).1 b).1,
       (apply_player_action g a).2 ++ (apply_player_action (apply_player_action g a).1 b).2) := by
  simp [apply_player_actions]

/-- Value of `head?` after setting index 0, for non-empty lists. -/
theorem head?_set_zero {α : Type} (l : List α) (x : α) (h : l ≠ []) :
    (l.set 0 x).head? = some x := by
  cases l with
  | nil => exact absurd rfl h
  | cons a t => rfl

/-- Value of `headD` after setting index 0, for non-empty lists. -/
theorem headD_set_zero {α : Type} (l : List α) (x d : α) (h : l ≠ []) :
    (l.set 0 x).headD d = x := by
  cases l with
  | nil => exact absurd rfl h
  | cons a t => rfl

/-- The `researchTechnology` action for a technology name. -/
def researchAction (tech : String) : PAction :=
  { type := some "researchTechnology", details := { technology := some tech } }

/-- Step lemma: a duplicate research is a silent no-op. -/
theorem research_step_present (gs : GameState) (tech : String) (h : tech ≠ "")
    (hp : ∃ t ∈ gs.player.technologies, t.name = some tech) :
    apply_player_action gs (researchAction tech) = (gs, []) := by
  simp [apply_player_action, researchAction, strTruthy, h, hp]

/-- Step lemma: an absent technology is appended with `turns_remaining` 0. -/
theorem research_step_absent (gs : GameState) (tech : String) (h : tech ≠ "")
    (ha : ∀ t ∈ gs.player.technologies, t.name ≠ some tech) :
    apply_player_action gs (researchAction tech) =
      ({gs with player := {gs.player with
          technologies := gs.player.technologies ++ [⟨some tech, some 0⟩]}}, []) := by
  have hne : ¬ ∃ t ∈ gs.player.technologies, t.name = some tech := by simpa using ha
  simp [apply_player_action, researchAction, strTruthy, h, hne]

/-- C6 (amended): a duplicate `researchTechnology` on the player side is
silently skipped — the technologies list is unchanged but NO error is
reported anywhere (empty warning log, no returned error value); an absent
technology is appended as `{name, turns_remaining: 0}`; applying the same
research twice to a state not containing it yields exactly one new entry and
no report; the AI-side variant performs no duplicate check at all and
appends unconditionally. -/
theorem c6_research_technology (gs : GameState) (tech : String) (h : tech ≠ "")
    (pick : Nat) :
    ((∃ t ∈ gs.player.technologies, t.name = some tech) →
      apply_player_actions gs [researchAction tech] = (gs, []))
    ∧ ((∀ t ∈ gs.player.technologies, t.name ≠ some tech) →
      apply_player_actions gs [researchAction tech] =
        ({gs with player := {gs.player with
            technologies := gs.player.technologies ++ [⟨some tech, some 0⟩]}}, []))
    ∧ ((∀ t ∈ gs.player.technologies, t.name ≠ some tech) →
      apply_player_actions gs [researchAction tech, researchAction tech] =
        ({gs with player := {gs.player with
            technologies := gs.player.technologies ++ [⟨some tech, some 0⟩]}}, []))
    ∧ ((apply_ai_actions gs [researchAction tech] pick).ai.headD emptyRoster).technologies
        = ((lazyAI gs).ai.headD emptyRoster).technologies ++ [⟨some tech, some 0⟩] := by
  refine ⟨fun hp => ?_, fun ha => ?_, fun ha => ?_, ?_⟩
  · rw [apply_player_actions_one, research_step_present gs tech h hp]
  · rw [apply_player_actions_one, research_step_absent gs tech h ha]
  · have e1 := research_step_absent gs tech h ha
    have hp2 : ∃ t ∈ ({gs with player := {gs.player with
        technologies := gs.player.technologies ++ [⟨some tech, some 0⟩]}} :
          GameState).player.technologies, t.name = some tech :=
      ⟨⟨some tech, some 0⟩, by simp, rfl⟩
    have e2 := research_step_present _ tech h hp2
    rw [apply_player_actions_two, e1]
    simpa using e2
  · by_cases hai : gs.ai = []
    · simp [apply_ai_actions, apply_ai_action, researchAction, strTruthy, h, lazyAI, hai,
        emptyRoster]
    · simp [apply_ai_actions, apply_ai_action, researchAction, lazyAI, hai, strTruthy, h,
        head?_set_zero _ _ hai]

/-- State whose first AI roster already knows Pottery. -/
def c6State : GameState :=
  { turn := 1, current_player := "ai",
    player := { cities := [], units := [], technologies := [], resources := [] },
    ai := [{ cities := [], units := [],
             technologies := [⟨some "Pottery", some 0⟩], resources := [] }],
    map := baseMap }

/-- C6: counterexample.  Applying `researchTechnology{technology:"Pottery"}`
via the AI-side applier to a roster that already contains Pottery appends a
second entry: the claim's "fails ... and leaves the technologies list
unchanged" is false for the acting AI side (the cited
`apply_ai_actions` has no duplicate check). -/
theorem c6_counterexample :
    ((apply_ai_actions c6State [researchAction "Pottery"] 0).ai.headD emptyRoster).technologies
      = [⟨some "Pottery", some 0⟩, ⟨some "Pottery", some 0⟩] := by
  decide

/-- Fresh state of the spec's end-to-end property: one player city, zero
units, no technologies. -/
def freshState : GameState :=
  { turn := 1, current_player := "player",
    player := { cities := [{ id := some "c1", name := some "c1",
                             location := some ⟨3, 3⟩, buildings := some [],
                             population := some 1, owner := some "player" }],
                units := [], technologies := [], resources := [] },
    ai := [emptyRoster], map := baseMap }

/-- C6: witness — the duplicate-free hypothesis holds for the fresh state
and researching Pottery twice yields exactly one entry and no report. -/
theorem c6_witness :
    (∀ t ∈ freshState.player.technologies, t.name ≠ some "Pottery")
    ∧ apply_player_actions freshState [researchAction "Pottery", researchAction "Pottery"]
        = ({freshState with player := {freshState.player with
            technologies := freshState.player.technologies ++ [⟨some "Pottery", some 0⟩]}}, []) :=
  ⟨by decide, (c6_research_technology freshState "Pottery" (by decide) 0).2.2.1 (by decide)⟩

/-- The `foundCity` action with optional explicit id and location. -/
def foundAction (cido : Option String) (loco : Option Loc) : PAction :=
  { type := some "foundCity", details := { cityId := cido, location := loco } }

/-- Step lemma: player `foundCity` whose resolved id already exists is a
silent no-op. -/
theorem found_step_dup (gs : GameState) (cido : Option String) (loc : Loc)
    (cid : String)
    (hcid : cid = cido.getD ("player_city_" ++ toString (gs.player.cities.length + 1)))
    (hp : ∃ c ∈ gs.player.cities, c.id = some cid) :
    apply_player_action gs (foundAction cido (some loc)) = (gs, []) := by
  subst hcid
  simp [apply_player_action, foundAction, hp]

/-- Step lemma: player `foundCity` with a fresh id appends the new city and,
when it is the first player city, reveals radius 2 around it. -/
theorem found_step_new (gs : GameState) (cido : Option String) (loc : Loc)
    (cid : String)
    (hcid : cid = cido.getD ("player_city_" ++ toString (gs.player.cities.length + 1)))
    (ha : ∀ c ∈ gs.player.cities, c.id ≠ some cid) :
    apply_player_action gs (foundAction cido (some loc)) =
      ({gs with
          player := {gs.player with cities := gs.player.cities ++ [mkCity "player" cid loc]},
          map := {gs.map with explored :=
            if gs.player.cities = [] then
              set_explored_radius gs.map.explored (loc.x, loc.y) 2
            else gs.map.explored}}, []) := by
  subst hcid
  have hne : ¬ ∃ c ∈ gs.player.cities,
      c.id = some (cido.getD ("player_city_" ++ toString (gs.player.cities.length + 1))) := by
    simpa using ha
  simp [apply_player_action, foundAction, hne, List.length_eq_zero]

/-- C7 (amended): the player-side `foundCity` behaves as claimed — duplicate
resolved id: the action fails silently and no city is appended; fresh id: a
city with population 1, empty buildings and owner `player` is appended, and
if it is the first player city an exploration reveal of radius 2 is
triggered around it.  The AI-side variant, however, performs NO duplicate
check (it appends unconditionally, even when a city with the resolved id
exists) and never triggers an exploration reveal. -/
theorem c7_found_city (gs : GameState) (cido : Option String) (loc : Loc)
    (pick : Nat) (cid : String)
    (hcid : cid = cido.getD ("player_city_" ++ toString (gs.player.cities.length + 1))) :
    ((∃ c ∈ gs.player.cities, c.id = some cid) →
      apply_player_actions gs [foundAction cido (some loc)] = (gs, []))
    ∧ ((∀ c ∈ gs.player.cities, c.id ≠ some cid) →
      apply_player_actions gs [foundAction cido (some loc)] =
        ({gs with
            player := {gs.player with cities := gs.player.cities ++ [mkCity "player" cid loc]},
            map := {gs.map with explored :=
              if gs.player.cities = [] then
                set_explored_radius gs.map.explored (loc.x, loc.y) 2
              else gs.map.explored}}, []))
    ∧ ((apply_ai_actions gs [foundAction cido (some loc)] pick).ai.headD emptyRoster).cities
        = ((lazyAI gs).ai.headD emptyRoster).cities
          ++ [aiNewCity gs.map.explored pick ((lazyAI gs).ai.headD emptyRoster).cities.length
                { cityId := cido, location := some loc }]
    ∧ (apply_ai_actions gs [foundAction cido (some loc)] pick).map = gs.map := by
  refine ⟨fun hp => ?_, fun ha => ?_, ?_, ?_⟩
  · rw [apply_player_actions_one, found_step_dup gs cido loc cid hcid hp]
  · rw [apply_player_actions_one, found_step_new gs cido loc cid hcid ha]
  · by_cases hai : gs.ai = []
    · simp [apply_ai_actions, apply_ai_action, foundAction, lazyAI, hai, emptyRoster]
    · simp [apply_ai_actions, apply_ai_action, foundAction, lazyAI, hai,
        head?_set_zero _ _ hai]
  · by_cases hai : gs.ai = []
    · simp [apply_ai_actions, apply_ai_action, foundAction, lazyAI, hai]
    · simp [apply_ai_actions, apply_ai_action, foundAction, lazyAI, hai]

/-- State whose first AI roster already has a city with id `c`. -/
def c7State : GameState :=
  { turn := 1, current_player := "ai",
    player := { cities := [], units := [], technologies := [], resources := [] },
    ai := [{ cities := [{ id := some "c", name := some "c", location := some ⟨2, 2⟩,
                          buildings := some [], population := some 1, owner := some "ai" }],
             units := [], technologies := [], resources := [] }],
    map := baseMap }

/-- C7: counterexample.  The AI-side `foundCity` with an explicit `cityId`
that already exists appends anyway: afterwards the roster holds two cities
with the same id, refuting "if a city with the resolved cityId already
exists in the acting side's roster the action fails and no city is
appended" for the AI side. -/
theorem c7_counterexample :
    (((apply_ai_actions c7State [foundAction (some "c") (some ⟨1, 1⟩)] 0).ai.headD
        emptyRoster).cities.map (fun c => c.id)) = [some "c", some "c"] := by
  decide

/-- C7: witness — founding a fresh city `c2` on a state that already has one
player city appends it without triggering a reveal. -/
theorem c7_witness :
    (∀ c ∈ freshState.player.cities, c.id ≠ some "c2")
    ∧ apply_player_actions freshState [foundAction (some "c2") (some ⟨7, 7⟩)] =
        ({freshState with
            player := {freshState.player with
              cities := freshState.player.cities ++ [mkCity "player" "c2" ⟨7, 7⟩]},
            map := {freshState.map with explored :=
              (if freshState.player.cities = [] then
                set_explored_radius freshState.map.explored ((⟨7, 7⟩ : Loc).x, (⟨7, 7⟩ : Loc).y) 2
              else freshState.map.explored)}}, []) :=
  ⟨by decide,
   (c7_found_city freshState (some "c2") ⟨7, 7⟩ 0 "c2" (by decide)).2.1 (by decide)⟩

/-- The `trainUnit` action (`quantity` optional, defaulting to 1 in the
applier). -/
def trainAction (cid uty : String) (qo : Option Int) : PAction :=
  { type := some "trainUnit",
    details := { cityId := some cid, unitType := some uty, quantity := qo } }

/-- Closed form of the units appended by a `trainUnit` loop starting from
unit count `n`: ids `"<side>_unit_<n+1>"`, `"<side>_unit_<n+2>"`, ... -/
def trainedUnits (side uty : String) (locn : Option Loc) : Nat → Nat → List GUnit
  | _, 0 => []
  | n, q + 1 => mkUnit side uty locn n :: trainedUnits side uty locn (n + 1) q

/-- The source's training loop equals the closed form. -/
theorem train_loop_eq (side uty : String) (locn : Option Loc) :
    ∀ (q : Nat) (units : List GUnit),
      train_loop side uty locn units q
        = units ++ trainedUnits side uty locn units.length q := by
  intro q
  induction q with
  | zero => intro units; simp [train_loop, trainedUnits]
  | succ q ih =>
    intro units
    rw [train_loop, ih, trainedUnits]
    simp

/-- Exactly `q` units are trained. -/
theorem trainedUnits_length (side uty : String) (locn : Option Loc) :
    ∀ (q n : Nat), (trainedUnits side uty locn n q).length = q := by
  intro q
  induction q with
  | zero => intro n; rfl
  | succ q ih => intro n; simp [trainedUnits, ih]

/-- Every trained unit carries the city's location, the acting side as
owner, movement points 2, and the requested type. -/
theorem trainedUnits_fields (side uty : String) (locn : Option Loc) :
    ∀ (q n : Nat), ∀ u ∈ trainedUnits side uty locn n q,
      u.location = locn ∧ u.owner = some side ∧ u.movement_points = some 2
      ∧ u.type = some uty := by
  intro q
  induction q with
  | zero => intro n u hu; simp [trainedUnits] at hu
  | succ q ih =>
    intro n u hu
    rcases (List.mem_cons).1 hu with h | h
    · subst h; exact ⟨rfl, rfl, rfl, rfl⟩
    · exact ih (n + 1) u h

/-- Step lemma: player `trainUnit` on a state whose city lookup succeeds
appends the closed-form units and reports nothing. -/
theorem train_step (gs : GameState) (cid uty : String) (qo : Option Int)
    (hcid : cid ≠ "") (huty : uty ≠ "") (c : City)
    (hfind : gs.player.cities.find? (fun c0 => c0.id == some cid) = some c) :
    apply_player_action gs (trainAction cid uty qo) =
      ({gs with player := {gs.player with
          units := gs.player.units ++ trainedUnits "player" uty c.location
            gs.player.units.length ((qo.getD 1).toNat)}}, []) := by
  simp [apply_player_action, trainAction, strTruthy, hcid, huty, hfind, train_loop_eq]

/-- The AI train loop ignores cities whose id does not match. -/
theorem ai_train_cities_no_match (cid uty : Option String) (q : Nat) :
    ∀ (cs : List City) (units : List GUnit),
      (∀ c ∈ cs, ¬ c.id = cid) →
      ai_train_cities cid uty q cs units = units := by
  intro cs
  induction cs with
  | nil => intro units _; rfl
  | cons c cs ih =>
    intro units h
    rw [ai_train_cities]
    rw [if_neg (by
      intro hc
      exact (h c (List.mem_cons_self c cs)) hc.1)]
    exact ih units (fun c' hc' => h c' (List.mem_cons_of_mem c hc'))

/-- When exactly one city in the roster matches the id, the AI train loop
appends the closed-form units generated at that city. -/
theorem ai_train_cities_single (cid : Option String) (uty : String)
    (huty : uty ≠ "") (q : Nat) (cs1 cs2 : List City) (c : City)
    (h1 : ∀ c' ∈ cs1, ¬ c'.id = cid) (hc : c.id = cid)
    (h2 : ∀ c' ∈ cs2, ¬ c'.id = cid) :
    ∀ (units : List GUnit),
      ai_train_cities cid (some uty) q (cs1 ++ c :: cs2) units
        = units ++ trainedUnits "ai" uty c.location units.length q := by
  induction cs1 with
  | nil =>
    intro units
    simp only [List.nil_append]
    rw [ai_train_cities]
    rw [if_pos ⟨hc, by simp [strTruthy, huty]⟩]
    rw [ai_train_cities_no_match cid (some uty) q cs2 _ h2]
    rw [train_loop_eq]
    simp
  | cons c1 cs1 ih =>
    intro units
    simp only [List.cons_append]
    rw [ai_train_cities]
    rw [if_neg (by
      intro hcc
      exact (h1 c1 (List.mem_cons_self c1 cs1)) hcc.1)]
    exact ih (fun c' hc' => h1 c' (List.mem_cons_of_mem c1 hc')) units

/-- C5 (amended): on a state whose acting roster contains the referenced
city, `trainUnit` with quantity `q` (default 1) appends exactly `q` new
units — each at the city's location, owned by the acting side, with
movement points 2 and id `"<side>_unit_<n+1>"` (`n` = unit count at
generation time, incremented per unit) — and reports nothing; this holds
for the player applier, and for the AI applier when exactly one roster city
bears the id.  (The generated ids need NOT be unique within the roster: a
pre-existing unit may already carry the generated name.) -/
theorem c5_train_unit (gs : GameState) (cid uty : String) (qo : Option Int)
    (pick : Nat) (hcid : cid ≠ "") (huty : uty ≠ "") (c : City)
    (hfind : gs.player.cities.find? (fun c0 => c0.id == some cid) = some c)
    (cs1 cs2 : List City) (cA : City)
    (hsplit : ((lazyAI gs).ai.headD emptyRoster).cities = cs1 ++ cA :: cs2)
    (hA1 : ∀ c' ∈ cs1, ¬ c'.id = some cid) (hcA : cA.id = some cid)
    (hA2 : ∀ c' ∈ cs2, ¬ c'.id = some cid) :
    (apply_player_actions gs [trainAction cid uty qo]).1.player.units
      = gs.player.units ++ trainedUnits "player" uty c.location
          gs.player.units.length ((qo.getD 1).toNat)
    ∧ (apply_player_actions gs [trainAction cid uty qo]).2 = []
    ∧ (apply_player_actions gs [trainAction cid uty qo]).1.player.units.length
        = gs.player.units.length + (qo.getD 1).toNat
    ∧ (∀ u ∈ trainedUnits "player" uty c.location gs.player.units.length ((qo.getD 1).toNat),
        u.location = c.location ∧ u.owner = some "player" ∧ u.movement_points = some 2)
    ∧ ((apply_ai_actions gs [trainAction cid uty qo] pick).ai.headD emptyRoster).units
        = ((lazyAI gs).ai.headD emptyRoster).units
          ++ trainedUnits "ai" uty cA.location
              ((lazyAI gs).ai.headD emptyRoster).units.length ((qo.getD 1).toNat) := by
  have hstep := train_step gs cid uty qo hcid huty c hfind
  refine ⟨?_, ?_, ?_, ?_, ?_⟩
  · rw [apply_player_actions_one, hstep]
  · rw [apply_player_actions_one, hstep]
  · rw [apply_player_actions_one, hstep]
    simp [trainedUnits_length]
  · intro u hu
    have h := trainedUnits_fields "player" uty c.location ((qo.getD 1).toNat)
      gs.player.units.length u hu
    exact ⟨h.1, h.2.1, h.2.2.1⟩
  · by_cases hai : gs.ai = []
    · simp only [lazyAI, hai, if_pos rfl] at hsplit
      simp [emptyRoster] at hsplit
    · have hsplit' : (gs.ai.head?.getD emptyRoster).cities = cs1 ++ cA :: cs2 := by
        simpa [lazyAI, hai, List.headD_eq_head?] using hsplit
      have e := ai_train_cities_single (some cid) uty huty ((qo.getD 1).toNat)
        cs1 cs2 cA hA1 hcA hA2
      simp [apply_ai_actions, apply_ai_action, trainAction, lazyAI, hai,
        head?_set_zero _ _ hai]
      rw [hsplit', e]

/-- State whose player roster already holds a unit named `player_unit_2`
(the next id the generator will produce) next to a valid city `c1`. -/
def c5State : GameState :=
  { turn := 1, current_player := "player",
    player := { cities := [{ id := some "c1", name := some "c1", location := some ⟨0, 0⟩,
                             buildings := some [], population := some 1,
                             owner := some "player" }],
                units := [{ id := some "player_unit_2", type := some "warrior",
                            location := some ⟨0, 0⟩, owner := some "player",
                            movement_points := some 2 }],
                technologies := [], resources := [] },
    ai := [emptyRoster], map := baseMap }

/-- C5: counterexample.  `trainUnit` generates `"player_unit_<n+1>"` purely
from the current unit count, so on a roster already containing a unit with
that very name the freshly generated id collides: after training one unit at
the valid city `c1`, the roster's unit ids are no longer pairwise distinct,
refuting the claim that the generated id "is unique within the roster". -/
theorem c5_counterexample :
    ¬ ((apply_player_actions c5State [trainAction "c1" "warrior" none]).1.player.units.map
        (fun u => u.id)).Nodup := by
  decide

/-- The player city of the C5 witness state. -/
def c5pc : City :=
  { id := some "c1", name := some "c1", location := some ⟨3, 3⟩,
    buildings := some [], population := some 1, owner := some "player" }

/-- The AI city of the C5 witness state (same id on the AI side). -/
def c5ac : City :=
  { id := some "c1", name := some "cA", location := some ⟨5, 5⟩,
    buildings := some [], population := some 1, owner := some "ai" }

/-- Witness state for C5: both rosters contain a city with id `c1`. -/
def c5WitState : GameState :=
  { turn := 1, current_player := "player",
    player := { cities := [c5pc], units := [], technologies := [], resources := [] },
    ai := [{ cities := [c5ac], units := [], technologies := [], resources := [] }],
    map := baseMap }

/-- C5: witness — training 2 warriors at `c1` grows the player roster by
exactly 2 units. -/
theorem c5_witness :
    c5WitState.player.cities.find? (fun c0 => c0.id == some "c1") = some c5pc
    ∧ (apply_player_actions c5WitState [trainAction "c1" "warrior" (some 2)]).1.player.units.length
        = c5WitState.player.units.length + ((some (2 : Int)).getD 1).toNat :=
  ⟨by decide,
   (c5_train_unit c5WitState "c1" "warrior" (some 2) 0 (by decide) (by decide) c5pc
     (by decide) [] [] c5ac (by decide) (by decide) (by decide) (by decide)).2.2.1⟩

/-- The fallback sequence is non-empty and its last entry is `endTurn` (the
fallback action list is always one state-dependent action plus `endTurn`). -/
theorem fallback_sequence_endTurn (gs : GameState) (ai : GameStatePlayer) :
    fallback_sequence gs ai ≠ []
    ∧ ((fallback_sequence gs ai).getLast?).map (fun e => e.action_type)
        = some "endTurn" := by
  unfold fallback_sequence fallback_actions
  by_cases h1 : ai.cities = [] <;> by_cases h2 : ai.units = [] <;>
    simp [h1, h2, List.enum, List.enumFrom]

/-- C2 (amended): whenever the oracle call raises, its output is
unparsable, or the extracted `actions` list is empty, the normalizer
degrades to the deterministic fallback, whose action sequence is non-empty
and ends with `endTurn`; and applying the fallback actions for a roster with
zero cities (and zero units) leaves that roster with exactly one city.  (For
a parseable oracle output with a non-empty actions list, the normalized
sequence can instead be empty — see the counterexample.) -/
theorem c2_normalizer_fallback (gs : GameState) (oracle : OracleOutcome) (pick : Nat) :
    ((oracle = OracleOutcome.raises ∨ oracle = OracleOutcome.unparsable
        ∨ oracle = OracleOutcome.parsed []) →
      (get_ai_actions gs oracle).2 ≠ []
      ∧ ((get_ai_actions gs oracle).2.getLast?).map (fun e => e.action_type)
          = some "endTurn")
    ∧ (((lazyAI gs).ai.headD emptyRoster).cities = [] →
       ((lazyAI gs).ai.headD emptyRoster).units = [] →
      ((apply_ai_actions gs
          (fallback_actions (lazyAI gs) ((lazyAI gs).ai.headD emptyRoster)) pick).ai.headD
            emptyRoster).cities.length = 1) := by
  constructor
  · rintro (rfl | rfl | rfl)
    · exact fallback_sequence_endTurn _ _
    · exact fallback_sequence_endTurn _ _
    · simpa [get_ai_actions] using fallback_sequence_endTurn (lazyAI gs)
        ((lazyAI gs).ai.headD emptyRoster)
  · intro hc _hu
    by_cases hai : gs.ai = []
    · simp [apply_ai_actions, apply_ai_action, fallback_actions, lazyAI, hai, emptyRoster]
    · have hc' : (gs.ai.head?.getD emptyRoster).cities = [] := by
        simpa [lazyAI, hai, List.headD_eq_head?] using hc
      simp [apply_ai_actions, apply_ai_action, fallback_actions, lazyAI, hai,
        head?_set_zero _ _ hai, hc', List.headD_eq_head?]

/-- An oracle-proposed `moveUnit` referencing a unit the AI does not own. -/
def c2GhostAct : PAction :=
  { type := some "moveUnit",
    details := { unitId := some "ghost", destination := some ⟨1, 1⟩ } }

/-- C2: counterexample.  When the oracle output parses to the non-empty
action list `[moveUnit "ghost"]` but the AI roster owns no such unit, the
ownership filter drops the only action and the normalizer returns an EMPTY
sequence with no trailing `endTurn` (no fallback is substituted on this
path), refuting "its returned action sequence is non-empty and ends with an
endTurn action" for every oracle behaviour. -/
theorem c2_counterexample :
    ¬ ((get_ai_actions freshState (OracleOutcome.parsed [c2GhostAct])).2 ≠ []
       ∧ ((get_ai_actions freshState (OracleOutcome.parsed [c2GhostAct])).2.getLast?).map
           (fun e => e.action_type) = some "endTurn") := by
  decide

/-- C2: witness — for a state whose (lazily initialized) AI roster has no
cities and no units, applying the fallback actions leaves exactly one
city. -/
theorem c2_witness :
    ((lazyAI c4EmptyState).ai.headD emptyRoster).cities = []
    ∧ ((apply_ai_actions c4EmptyState
        (fallback_actions (lazyAI c4EmptyState) ((lazyAI c4EmptyState).ai.headD emptyRoster))
        0).ai.headD emptyRoster).cities.length = 1 :=
  ⟨by decide,
   (c2_normalizer_fallback c4EmptyState OracleOutcome.raises 0).2 (by decide) (by decide)⟩

/-- Characterization of an entry the normalizer emits: `moveUnit` entries
reference an owned unit id, `buildStructure`/`trainUnit` entries an owned
city id. -/
theorem normalize_action_spec (ai : GameStatePlayer) (idx : Nat) (a : PAction)
    (e : SeqEntry) (h : normalize_action ai idx a = some e) :
    (e.action_type = "moveUnit" →
      ∃ oid, e.entity = some ⟨oid, "Unknown", "unit"⟩
        ∧ oid ∈ ai.units.map (fun u => u.id))
    ∧ ((e.action_type = "buildStructure" ∨ e.action_type = "trainUnit") →
      ∃ oid, e.entity = some ⟨oid, "Unknown", "city"⟩
        ∧ oid ∈ ai.cities.map (fun c => c.id)) := by
  unfold normalize_action at h
  by_cases h1 : a.type.getD "" = "moveUnit"
  · rw [if_pos h1] at h
    by_cases h2 : a.details.unitId ∈ ai.units.map (fun u => u.id)
    · rw [if_pos h2] at h
      obtain rfl := Option.some.inj h
      refine ⟨fun _ => ⟨a.details.unitId, rfl, h2⟩, fun hor => ?_⟩
      rcases hor with h' | h' <;> exact absurd (h1.symm.trans h') (by decide)
    · rw [if_neg h2] at h
      exact Option.noConfusion h
  · rw [if_neg h1] at h
    by_cases h3 : a.type.getD "" = "buildStructure" ∨ a.type.getD "" = "trainUnit"
    · rw [if_pos h3] at h
      by_cases h4 : a.details.cityId ∈ ai.cities.map (fun c => c.id)
      · rw [if_pos h4] at h
        obtain rfl := Option.some.inj h
        exact ⟨fun h' => absurd h' h1, fun _ => ⟨a.details.cityId, rfl, h4⟩⟩
      · rw [if_neg h4] at h
        exact Option.noConfusion h
    · rw [if_neg h3] at h
      by_cases h5 : a.type.getD "" = "attackEnemy"
      · rw [if_pos h5] at h
        obtain rfl := Option.some.inj h
        exact ⟨fun h' => absurd h' h1, fun hor => absurd hor h3⟩
      · rw [if_neg h5] at h
        by_cases h6 : a.type.getD "" = "foundCity" ∨ a.type.getD "" = "improveResource"
            ∨ a.type.getD "" = "researchTechnology" ∨ a.type.getD "" = "endTurn"
        · rw [if_pos h6] at h
          obtain rfl := Option.some.inj h
          exact ⟨fun h' => absurd h' h1, fun hor => absurd hor h3⟩
        · rw [if_neg h6] at h
          exact Option.noConfusion h

/-- C9: every `moveUnit` entry of the normalized output references a unit id
present among the AI roster's own units, and every
`buildStructure`/`trainUnit` entry a city id present among its own cities;
actions of those three types referencing other ids are silently dropped
(`none`, no user-facing error anywhere); `foundCity`, `improveResource`,
`researchTechnology` and `endTurn` pass through with no ownership check. -/
theorem c9_ownership_filter (ai : GameStatePlayer) (acts : List PAction) :
    (∀ e ∈ build_sequence ai acts,
      (e.action_type = "moveUnit" →
        ∃ oid, e.entity = some ⟨oid, "Unknown", "unit"⟩
          ∧ oid ∈ ai.units.map (fun u => u.id))
      ∧ ((e.action_type = "buildStructure" ∨ e.action_type = "trainUnit") →
        ∃ oid, e.entity = some ⟨oid, "Unknown", "city"⟩
          ∧ oid ∈ ai.cities.map (fun c => c.id)))
    ∧ (∀ (idx : Nat) (a : PAction), a.type.getD "" = "moveUnit" →
        ¬ a.details.unitId ∈ ai.units.map (fun u => u.id) →
        normalize_action ai idx a = none)
    ∧ (∀ (idx : Nat) (a : PAction),
        (a.type.getD "" = "buildStructure" ∨ a.type.getD "" = "trainUnit") →
        ¬ a.details.cityId ∈ ai.cities.map (fun c => c.id) →
        normalize_action ai idx a = none)
    ∧ (∀ (idx : Nat) (a : PAction),
        (a.type.getD "" = "foundCity" ∨ a.type.getD "" = "improveResource"
          ∨ a.type.getD "" = "researchTechnology" ∨ a.type.getD "" = "endTurn") →
        normalize_action ai idx a = some ⟨idx, a.type.getD "", none, none, none⟩) := by
  refine ⟨?_, ?_, ?_, ?_⟩
  · intro e he
    rw [build_sequence] at he
    simp only [List.mem_filterMap] at he
    obtain ⟨⟨i, a⟩, _hmem, hn⟩ := he
    exact normalize_action_spec ai i a e hn
  · intro idx a h hmem
    unfold normalize_action
    rw [if_pos h, if_neg hmem]
  · intro idx a hor hmem
    have h1 : ¬ a.type.getD "" = "moveUnit" := by
      rcases hor with h | h <;> rw [h] <;> decide
    unfold normalize_action
    rw [if_neg h1, if_pos hor, if_neg hmem]
  · intro idx a hor
    have h1 : ¬ a.type.getD "" = "moveUnit" := by
      rcases hor with h | h | h | h <;> rw [h] <;> decide
    have h3 : ¬ (a.type.getD "" = "buildStructure" ∨ a.type.getD "" = "trainUnit") := by
      rcases hor with h | h | h | h <;> rw [h] <;> decide
    have h5 : ¬ a.type.getD "" = "attackEnemy" := by
      rcases hor with h | h | h | h <;> rw [h] <;> decide
    unfold normalize_action
    rw [if_neg h1, if_neg h3, if_neg h5, if_pos hor]

/-- AI roster owning exactly one unit, `ai_unit_1`. -/
def c9AI : GameStatePlayer :=
  { cities := [],
    units := [{ id := some "ai_unit_1", type := some "warrior",
                location := some ⟨1, 1⟩, owner := some "ai",
                movement_points := some 2 }],
    technologies := [], resources := [] }

/-- C9: witness — a `moveUnit` naming a unit the AI does not own is dropped
from the output. -/
theorem c9_witness :
    c2GhostAct.type.getD "" = "moveUnit"
    ∧ ¬ c2GhostAct.details.unitId ∈ c9AI.units.map (fun u => u.id)
    ∧ normalize_action c9AI 2 c2GhostAct = none :=
  ⟨by decide, by decide,
   (c9_ownership_filter c9AI [c2GhostAct]).2.1 2 c2GhostAct (by decide) (by decide)⟩

/-! ### Lemmas about `set_explored_radius` (claim C10) -/

/-- Value of `getD` after an in-range `set` at the same index. -/
theorem getD_set_self {α : Type} (l : List α) (i : Nat) (a d : α)
    (h : i < l.length) : (l.set i a).getD i d = a := by
  simp [List.getD, List.getElem?_set_eq_of_lt, h]

/-- Value of `getD` after a `set` at a different index. -/
theorem getD_set_ne {α : Type} (l : List α) {i j : Nat} (a d : α)
    (h : i ≠ j) : (l.set i a).getD j d = l.getD j d := by
  simp [List.getD, List.getElem?_set_ne, h]

/-- Reading back an in-range written cell. -/
theorem getCell_setCell_self (g : List (List Nat)) (x y v : Nat)
    (hy : y < g.length) (hx : x < (g.getD y []).length) :
    getCell (setCell g x y v) x y = v := by
  unfold getCell setCell
  rw [getD_set_self _ _ _ _ hy, getD_set_self _ _ _ _ hx]

/-- Writing one cell leaves every other cell unchanged. -/
theorem getCell_setCell_ne (g : List (List Nat)) (x y x' y' v : Nat)
    (h : ¬(x' = x ∧ y' = y)) :
    getCell (setCell g x y v) x' y' = getCell g x' y' := by
  unfold getCell setCell
  by_cases hyy : y' = y
  · subst hyy
    have hx : x ≠ x' := fun hxx => h ⟨hxx.symm, rfl⟩
    by_cases hy : y' < g.length
    · rw [getD_set_self _ _ _ _ hy, getD_set_ne _ _ _ hx]
    · rw [List.set_eq_of_length_le (Nat.le_of_not_lt hy)]
  · rw [getD_set_ne _ _ _ (fun he => hyy he.symm)]

/-- The write `setCell` preserves the number of rows. -/
theorem setCell_length (g : List (List Nat)) (x y v : Nat) :
    (setCell g x y v).length = g.length := by
  simp [setCell]

/-- The write `setCell` preserves every row's length. -/
theorem setCell_rowLen (g : List (List Nat)) (x y v i : Nat) :
    ((setCell g x y v).getD i []).length = (g.getD i []).length := by
  unfold setCell
  by_cases hi : y = i
  · subst hi
    by_cases hy : y < g.length
    · rw [getD_set_self _ _ _ _ hy, List.length_set]
    · rw [List.set_eq_of_length_le (Nat.le_of_not_lt hy)]
  · rw [getD_set_ne _ _ _ hi]

/-- The loop body `writeStep` preserves the number of rows. -/
theorem writeStep_length (center : Int × Int) (w h : Nat)
    (g : List (List Nat)) (p : Int × Int) :
    (writeStep center w h g p).length = g.length := by
  unfold writeStep
  split
  · rw [setCell_length]
  · rfl

/-- The loop body `writeStep` preserves every row's length. -/
theorem writeStep_rowLen (center : Int × Int) (w h : Nat)
    (g : List (List Nat)) (p : Int × Int) (i : Nat) :
    ((writeStep center w h g p).getD i []).length = (g.getD i []).length := by
  unfold writeStep
  split
  · rw [setCell_rowLen]
  · rfl

/-- The offset pairs `(dy, dx)` visited by the double loop, in order. -/
def offPairs (radius : Nat) : List (Int × Int) :=
  (offs radius).flatMap (fun dy => (offs radius).map (fun dx => (dy, dx)))

/-- A nested fold over two index lists is the fold over the pair list. -/
theorem foldl_foldl_flatMap {α β : Type} (f : β → α × α → β) (l1 l2 : List α) :
    ∀ (b : β), l1.foldl (fun b1 dy => l2.foldl (fun b2 dx => f b2 (dy, dx)) b1) b
      = (l1.flatMap (fun dy => l2.map (fun dx => (dy, dx)))).foldl f b := by
  induction l1 with
  | nil => intro b; rfl
  | cons dy l1 ih =>
    intro b
    rw [List.foldl_cons, ih]
    simp [List.foldl_append, List.foldl_map]

/-- The reveal `set_explored_radius` as a single fold over the offset
pairs. -/
theorem ser_eq_fold (explored : List (List Nat)) (center : Int × Int) (radius : Nat) :
    set_explored_radius explored center radius
      = (offPairs radius).foldl
          (writeStep center (explored.headD []).length explored.length) explored := by
  unfold set_explored_radius offPairs
  rw [foldl_foldl_flatMap]

/-- The fold preserves the number of rows. -/
theorem fold_writeStep_length (center : Int × Int) (w h : Nat)
    (ps : List (Int × Int)) :
    ∀ (g : List (List Nat)), (ps.foldl (writeStep center w h) g).length = g.length := by
  induction ps with
  | nil => intro g; rfl
  | cons p ps ih =>
    intro g
    rw [List.foldl_cons, ih, writeStep_length]

/-- The fold preserves every row's length. -/
theorem fold_writeStep_rowLen (center : Int × Int) (w h : Nat)
    (ps : List (Int × Int)) :
    ∀ (g : List (List Nat)) (i : Nat),
      ((ps.foldl (writeStep center w h) g).getD i []).length = (g.getD i []).length := by
  induction ps with
  | nil => intro g i; rfl
  | cons p ps ih =>
    intro g i
    rw [List.foldl_cons, ih, writeStep_rowLen]

/-- Cellwise behaviour of the write fold on a rectangular grid: a cell is 1
exactly when some visited offset pair targets it, else unchanged. -/
theorem fold_writeStep_spec (center : Int × Int) (w h : Nat)
    (ps : List (Int × Int)) :
    ∀ (g : List (List Nat)), g.length = h →
      (∀ i, i < h → (g.getD i []).length = w) →
      ∀ x y : Nat, x < w → y < h →
      getCell (ps.foldl (writeStep center w h) g) x y
        = if ∃ p ∈ ps, center.1 + p.2 = (x : Int) ∧ center.2 + p.1 = (y : Int) then 1
          else getCell g x y := by
  induction ps with
  | nil =>
    intro g _ _ x y _ _
    simp
  | cons p ps ih =>
    intro g hg hrow x y hx hy
    rw [List.foldl_cons]
    have hg' : (writeStep center w h g p).length = h := by rw [writeStep_length, hg]
    have hrow' : ∀ i, i < h → ((writeStep center w h g p).getD i []).length = w := by
      intro i hi
      rw [writeStep_rowLen]
      exact hrow i hi
    rw [ih (writeStep center w h g p) hg' hrow' x y hx hy]
    by_cases hps : ∃ q ∈ ps, center.1 + q.2 = (x : Int) ∧ center.2 + q.1 = (y : Int)
    · rw [if_pos hps]
      obtain ⟨q, hq, hqe⟩ := hps
      rw [if_pos ⟨q, List.mem_cons_of_mem p hq, hqe⟩]
    · rw [if_neg hps]
      by_cases hp : center.1 + p.2 = (x : Int) ∧ center.2 + p.1 = (y : Int)
      · have hcond : 0 ≤ center.1 + p.2 ∧ center.1 + p.2 < (w : Int)
            ∧ 0 ≤ center.2 + p.1 ∧ center.2 + p.1 < (h : Int) := by
          obtain ⟨hp1, hp2⟩ := hp
          refine ⟨by omega, by omega, by omega, by omega⟩
        have hws : writeStep center w h g p = setCell g x y 1 := by
          unfold writeStep
          rw [if_pos hcond]
          obtain ⟨hp1, hp2⟩ := hp
          congr 1 <;> omega
        rw [hws, getCell_setCell_self g x y 1 (by omega) (by rw [hrow y hy]; exact hx)]
        rw [if_pos ⟨p, List.mem_cons_self p ps, hp⟩]
      · have hmiss : getCell (writeStep center w h g p) x y = getCell g x y := by
          unfold writeStep
          split
          · next hcond =>
            apply getCell_setCell_ne
            rintro ⟨hxx, hyy⟩
            apply hp
            obtain ⟨hc1, hc2, hc3, hc4⟩ := hcond
            constructor <;> omega
          · rfl
        rw [hmiss, if_neg]
        rintro ⟨q, hq, hqe⟩
        rcases List.mem_cons.1 hq with rfl | hq'
        · exact hp hqe
        · exact hps ⟨q, hq', hqe⟩

/-- Membership in the offset list is the interval `[-radius, radius]`. -/
theorem mem_offs (radius : Nat) (d : Int) :
    d ∈ offs radius ↔ -(radius : Int) ≤ d ∧ d ≤ radius := by
  simp only [offs, List.mem_map, List.mem_range]
  constructor
  · rintro ⟨i, hi, rfl⟩
    omega
  · rintro ⟨h1, h2⟩
    exact ⟨(d + radius).toNat, by omega, by omega⟩

/-- Membership in the offset-pair list is the Chebyshev square. -/
theorem mem_offPairs (radius : Nat) (p : Int × Int) :
    p ∈ offPairs radius ↔ p.1.natAbs ≤ radius ∧ p.2.natAbs ≤ radius := by
  simp only [offPairs, List.mem_flatMap, List.mem_map]
  constructor
  · rintro ⟨dy, hdy, dx, hdx, rfl⟩
    rw [mem_offs] at hdy hdx
    constructor <;> simp <;> omega
  · rintro ⟨h1, h2⟩
    exact ⟨p.1, (mem_offs radius p.1).2 (by omega), p.2,
      (mem_offs radius p.2).2 (by omega), rfl⟩

/-- A visited pair targets `(x, y)` iff `(x, y)` lies within Chebyshev
distance `radius` of the center. -/
theorem exists_offPair_iff (center : Int × Int) (radius : Nat) (x y : Nat) :
    (∃ p ∈ offPairs radius,
       center.1 + p.2 = (x : Int) ∧ center.2 + p.1 = (y : Int))
      ↔ max ((x : Int) - center.1).natAbs ((y : Int) - center.2).natAbs ≤ radius := by
  rw [Nat.max_le]
  constructor
  · rintro ⟨p, hp, h1, h2⟩
    rw [mem_offPairs] at hp
    constructor <;> omega
  · rintro ⟨h1, h2⟩
    refine ⟨((y : Int) - center.2, (x : Int) - center.1),
      (mem_offPairs radius _).2 ⟨by simp; omega, by simp; omega⟩, by omega, by omega⟩

/-- The reveal `set_explored_radius` preserves the number of rows. -/
theorem ser_length (g : List (List Nat)) (c : Int × Int) (r : Nat) :
    (set_explored_radius g c r).length = g.length := by
  rw [ser_eq_fold]
  exact fold_writeStep_length _ _ _ _ g

/-- The reveal `set_explored_radius` preserves every row's length. -/
theorem ser_rowLen (g : List (List Nat)) (c : Int × Int) (r : Nat) (i : Nat) :
    ((set_explored_radius g c r).getD i []).length = (g.getD i []).length := by
  rw [ser_eq_fold]
  exact fold_writeStep_rowLen _ _ _ _ g i

/-- Value of `headD` as `getD` at index 0. -/
theorem headD_eq_getD_zero {α : Type} (l : List α) (d : α) :
    l.headD d = l.getD 0 d := by
  cases l <;> rfl

/-- Cellwise characterization of `set_explored_radius` on a rectangular
grid: exactly the in-bounds cells within Chebyshev distance `radius` of the
center become 1; all other cells keep their value. -/
theorem ser_getCell (g : List (List Nat)) (c : Int × Int) (r : Nat)
    (hrect : ∀ i, i < g.length → (g.getD i []).length = (g.headD []).length)
    (x y : Nat) (hx : x < (g.headD []).length) (hy : y < g.length) :
    getCell (set_explored_radius g c r) x y
      = if max ((x : Int) - c.1).natAbs ((y : Int) - c.2).natAbs ≤ r then 1
        else getCell g x y := by
  rw [ser_eq_fold]
  rw [fold_writeStep_spec c (g.headD []).length g.length (offPairs r) g rfl hrect x y hx hy]
  exact if_congr (exists_offPair_iff c r x y) rfl rfl

/-- Extensionality for rows from `getD` values. -/
theorem row_ext : ∀ (l1 l2 : List Nat), l1.length = l2.length →
    (∀ x, x < l1.length → l1.getD x 0 = l2.getD x 0) → l1 = l2
  | [], [], _, _ => rfl
  | [], _ :: _, h, _ => by simp at h
  | _ :: _, [], h, _ => by simp at h
  | a :: l1, b :: l2, h, hc => by
    have h0 : a = b := hc 0 (by simp)
    have ht : l1 = l2 := row_ext l1 l2 (by simpa using h)
      (fun x hx => hc (x + 1) (by simpa using Nat.succ_lt_succ hx))
    rw [h0, ht]

/-- Extensionality for grids from shape and `getCell` values. -/
theorem grid_ext : ∀ (g1 g2 : List (List Nat)), g1.length = g2.length →
    (∀ y, y < g1.length → (g1.getD y []).length = (g2.getD y []).length) →
    (∀ x y, y < g1.length → x < (g1.getD y []).length →
      getCell g1 x y = getCell g2 x y) →
    g1 = g2
  | [], [], _, _, _ => rfl
  | [], _ :: _, h, _, _ => by simp at h
  | _ :: _, [], h, _, _ => by simp at h
  | r1 :: g1, r2 :: g2, h, hrow, hcell => by
    have h0 : r1 = r2 := row_ext r1 r2 (hrow 0 (by simp))
      (fun x hx => hcell x 0 (by simp) hx)
    have ht : g1 = g2 := grid_ext g1 g2 (by simpa using h)
      (fun y hy => hrow (y + 1) (by simpa using Nat.succ_lt_succ hy))
      (fun x y hy hx => hcell x (y + 1) (by simpa using Nat.succ_lt_succ hy) hx)
    rw [h0, ht]

/-- C10: on a rectangular explored grid, `set_explored_radius` sets exactly
the in-bounds cells within Chebyshev distance `radius` of the center to 1,
leaves all other cells (and the grid's dimensions) unchanged, and is
idempotent. -/
theorem c10_reveal_radius (g : List (List Nat)) (c : Int × Int) (r : Nat)
    (hrect : ∀ i, i < g.length → (g.getD i []).length = (g.headD []).length) :
    (set_explored_radius g c r).length = g.length
    ∧ (∀ i, ((set_explored_radius g c r).getD i []).length = (g.getD i []).length)
    ∧ (∀ x y : Nat, x < (g.headD []).length → y < g.length →
        getCell (set_explored_radius g c r) x y
          = if max ((x : Int) - c.1).natAbs ((y : Int) - c.2).natAbs ≤ r then 1
            else getCell g x y)
    ∧ set_explored_radius (set_explored_radius g c r) c r
        = set_explored_radius g c r := by
  have hlen := ser_length g c r
  have hrowl := ser_rowLen g c r
  have hhead : ((set_explored_radius g c r).headD []).length = (g.headD []).length := by
    rw [headD_eq_getD_zero, headD_eq_getD_zero, hrowl 0]
  have hrect1 : ∀ i, i < (set_explored_radius g c r).length →
      ((set_explored_radius g c r).getD i []).length
        = ((set_explored_radius g c r).headD []).length := by
    intro i hi
    rw [hrowl i, hhead]
    exact hrect i (by rw [← hlen]; exact hi)
  refine ⟨hlen, hrowl, ser_getCell g c r hrect, ?_⟩
  apply grid_ext
  · rw [ser_length]
  · intro y _
    rw [ser_rowLen]
  · intro x y hy hxx
    have hy1 : y < (set_explored_radius g c r).length := by
      rw [ser_length] at hy
      exact hy
    have hy0 : y < g.length := by rw [← hlen]; exact hy1
    have hx1 : x < ((set_explored_radius g c r).headD []).length := by
      rw [ser_rowLen] at hxx
      rw [← hrect1 y hy1] at *
      exact hxx
    have hx0 : x < (g.headD []).length := by rw [← hhead]; exact hx1
    rw [ser_getCell (set_explored_radius g c r) c r hrect1 x y hx1 hy1]
    by_cases hc : max ((x : Int) - c.1).natAbs ((y : Int) - c.2).natAbs ≤ r
    · rw [if_pos hc, ser_getCell g c r hrect x y hx0 hy0, if_pos hc]
    · rw [if_neg hc]

/-- C10: witness — the cellwise description instantiated on a concrete 2×2
grid, radius 1, center (0,0). -/
theorem c10_witness :
    (∀ i, i < ([[0, 0], [0, 0]] : List (List Nat)).length →
      (([[0, 0], [0, 0]] : List (List Nat)).getD i []).length
        = (([[0, 0], [0, 0]] : List (List Nat)).headD []).length)
    ∧ getCell (set_explored_radius [[0, 0], [0, 0]] (0, 0) 1) 1 1
        = if max ((1 : Int) - 0).natAbs ((1 : Int) - 0).natAbs ≤ 1 then 1
          else getCell [[0, 0], [0, 0]] 1 1 :=
  ⟨by decide,
   (c10_reveal_radius [[0, 0], [0, 0]] (0, 0) 1 (by decide)).2.2.1 1 1 (by decide) (by decide)⟩

end Civ
